import Mathlib

/-!
Verification of the fxTrading order-simulation core.

Shallow embedding of the Python modules `order.py`, `trading_system.py` and
`account.py`.  Python `Decimal` prices are modelled by `ℚ` (the computations
at issue — addition, subtraction, multiplication by small decimals, and
comparisons — are exact in `Decimal` at these magnitudes, so `ℚ` is faithful).
`datetime` timestamps are modelled by `ℕ`.  Python truthiness of an
`Optional[Decimal]` (`if self.take_profit:` is false for both `None` and
`Decimal(0)`) is modelled by `truthy`.  The engine's order registry
(a Python dict keyed by order id) is modelled as a function
`String → Option Order`.  The account's JSON file is modelled by the
abstract `Storage` type: absent, present-but-unreadable, or a valid record
holding a balance.
-/

namespace FxTrading

/-- Source: `order.py`, `class OrderType(Enum)`. -/
inductive OrderType
  | buy
  | sell
deriving DecidableEq, Repr

/-- Source: `order.py`, `class OrderStatus(Enum)`. -/
inductive OrderStatus
  | pending
  | executed
  | cancelled
deriving DecidableEq, Repr

/-- Source: `order.py`, class constant `SPREAD = Decimal('0.2')`. -/
def SPREAD : ℚ := 0.2

/-- Source: `order.py`, class constant `COMMISSION = Decimal('100')`. -/
def COMMISSION : ℚ := 100

/-- Source: `order.py`, `@dataclass class Order`. -/
structure Order where
  order_id : String
  timestamp : ℕ
  order_type : OrderType
  price : ℚ
  quantity : ℚ
  take_profit : Option ℚ := none
  stop_loss : Option ℚ := none
  status : OrderStatus := OrderStatus.pending
  executed_price : Option ℚ := none
  executed_time : Option ℕ := none
deriving DecidableEq, Repr

/-- Python truthiness of an `Optional[Decimal]`: `None` and `Decimal(0)` are
falsy, every other value is truthy. -/
def truthy : Option ℚ → Bool
  | none => false
  | some v => decide (v ≠ 0)

/-- Source: `order.py`, `Order.get_execution_price`. -/
def Order.get_execution_price (o : Order) (market_price : ℚ) : ℚ :=
  match o.order_type with
  | OrderType.buy => market_price + SPREAD / 2
  | OrderType.sell => market_price - SPREAD / 2

/-- Source: `order.py`, `Order.is_executable`.  The Python tests
`if self.take_profit and execution_price >= self.take_profit` use truthiness,
so a take-profit or stop-loss of `Decimal(0)` disables that branch. -/
def Order.is_executable (o : Order) (current_price : ℚ) : Bool :=
  if o.status ≠ OrderStatus.pending then false
  else
    let execution_price := o.get_execution_price current_price
    match o.order_type with
    | OrderType.buy =>
        (truthy o.take_profit && decide (o.take_profit.getD 0 ≤ execution_price))
        || (truthy o.stop_loss && decide (execution_price ≤ o.stop_loss.getD 0))
    | OrderType.sell =>
        (truthy o.take_profit && decide (execution_price ≤ o.take_profit.getD 0))
        || (truthy o.stop_loss && decide (o.stop_loss.getD 0 ≤ execution_price))

/-- Source: `order.py`, `Order.execute`. -/
def Order.execute (o : Order) (market_price : ℚ) (timestamp : ℕ) : Order :=
  { o with
    executed_price := some (o.get_execution_price market_price)
    executed_time := some timestamp
    status := OrderStatus.executed }

/-- Source: `order.py`, `Order.calculate_pnl`.  The guard is
`if not self.executed_price or self.status != OrderStatus.EXECUTED`, where
`not self.executed_price` is Python truthiness (true for `None` and for
`Decimal(0)`). -/
def Order.calculate_pnl (o : Order) : Option ℚ :=
  if ¬ truthy o.executed_price ∨ o.status ≠ OrderStatus.executed then none
  else
    let ep := o.executed_price.getD 0
    let base_pnl :=
      match o.order_type with
      | OrderType.buy => (ep - o.price) * o.quantity
      | OrderType.sell => (o.price - ep) * o.quantity
    some (base_pnl - COMMISSION)

/-- Abstract state of the on-disk account file (`account.json`): the file may
be absent, present but corrupt/unreadable, or a valid JSON record holding a
balance. -/
inductive Storage
  | absent
  | corrupt
  | valid (balance : ℚ)
deriving DecidableEq, Repr

/-- In-memory account plus its backing store, source: `account.py`,
`class Account`. -/
structure AccountState where
  balance : ℚ
  storage : Storage
deriving DecidableEq, Repr

namespace Account

/-- Source: `account.py`, `Account._save_account`: rewrites the file with the
given balance. -/
def save_account (balance : ℚ) : Storage := Storage.valid balance

/-- Source: `account.py`, `Account._load_account` (run from `__init__`, which
first sets `balance = Decimal('0')`): an absent file initializes the balance
to the default 100000 and persists it at once; a corrupt file is caught,
leaves the store as it is, and resets the in-memory balance to 0; a valid
file yields its stored balance. -/
def load_account : Storage → AccountState
  | Storage.absent => { balance := 100000, storage := save_account 100000 }
  | Storage.corrupt => { balance := 0, storage := Storage.corrupt }
  | Storage.valid b => { balance := b, storage := Storage.valid b }

/-- Source: `account.py`, `Account.update_balance`: `balance += amount` then
`_save_account()`. -/
def update_balance (a : AccountState) (amount : ℚ) : AccountState :=
  { balance := a.balance + amount, storage := save_account (a.balance + amount) }

/-- Source: `account.py`, `Account.get_balance`. -/
def get_balance (a : AccountState) : ℚ := a.balance

end Account

/-- Source: `trading_system.py`, OHLCV bar row of the loaded market data. -/
structure Bar where
  timestamp : ℕ
  open_price : ℚ
  high : ℚ
  low : ℚ
  close_price : ℚ
  volume : ℚ
deriving DecidableEq, Repr

/-- Source: `trading_system.py`, class constant `DEFAULT_QUANTITY`. -/
def DEFAULT_QUANTITY : ℚ := 10000

/-- The engine's order registry, source: `trading_system.py`,
`self.orders: Dict[str, Order]`, modelled as a lookup function. -/
def Registry : Type := String → Option Order

/-- Source: `trading_system.py`, `TradingSystem.place_order`: constructs the
`Order` (state PENDING), stores it in the registry under a fresh id, and
returns the id.  The uuid is modelled as a caller-supplied `order_id`; the
spawned scan task corresponds to a later `process_order` run.  Note the
source performs no validation of its arguments. -/
def place_order (orders : Registry) (order_id : String) (timestamp : ℕ)
    (order_type : OrderType) (price : ℚ) (quantity : ℚ)
    (take_profit : Option ℚ) (stop_loss : Option ℚ) : Registry × String :=
  let order : Order :=
    { order_id := order_id, timestamp := timestamp, order_type := order_type
      price := price, quantity := quantity
      take_profit := take_profit, stop_loss := stop_loss }
  (fun k => if k = order_id then some order else orders k, order_id)

/-- Source: `trading_system.py`, `TradingSystem._process_order`, the per-bar
test `if order.is_executable(current_high) or order.is_executable(current_low)`. -/
def trigger (o : Order) (b : Bar) : Bool :=
  o.is_executable b.high || o.is_executable b.low

/-- Source: `trading_system.py`, `TradingSystem._process_order`, body of the
triggered branch: the execution price is the bar's high for a BUY and the
bar's low for a SELL; the order is executed at the bar's timestamp and the
pnl, when not `None`, is applied to the account. -/
def execute_step (o : Order) (a : AccountState) (b : Bar) : Order × AccountState :=
  let execute_price :=
    match o.order_type with
    | OrderType.buy => b.high
    | OrderType.sell => b.low
  let executed := o.execute execute_price b.timestamp
  match executed.calculate_pnl with
  | some pnl => (executed, Account.update_balance a pnl)
  | none => (executed, a)

/-- Source: `trading_system.py`, `TradingSystem._process_order`, the
`for timestamp, row in future_data.iterrows()` loop with its `break`. -/
def scan_bars (o : Order) (a : AccountState) : List Bar → Order × AccountState
  | [] => (o, a)
  | b :: rest => if trigger o b then execute_step o a b else scan_bars o a rest

/-- Source: `trading_system.py`, `TradingSystem._process_order`:
`future_data = self.market_data[order.timestamp:]` keeps the rows whose
timestamp is at or after the order's timestamp (label slicing on the sorted
index is inclusive), then the loop scans them in order. -/
def future_bars (o : Order) (bars : List Bar) : List Bar :=
  bars.filter fun b => decide (o.timestamp ≤ b.timestamp)

/-- Source: `trading_system.py`, `TradingSystem._process_order`, entry point:
slice, then scan. -/
def process_order (o : Order) (a : AccountState) (bars : List Bar) :
    Order × AccountState :=
  scan_bars o a (future_bars o bars)

/-- Source: `trading_system.py`, `TradingSystem.cancel_order`. -/
def cancel_order (orders : Registry) (order_id : String) : Bool × Registry :=
  match orders order_id with
  | some o =>
      if o.status = OrderStatus.pending then
        (true, fun k =>
          if k = order_id then some { o with status := OrderStatus.cancelled }
          else orders k)
      else (false, orders)
  | none => (false, orders)

/-! Helper lemmas about the scanning loop. -/

/-- The order component of one triggered step is the order executed at the
type-selected side of the bar, whatever `calculate_pnl` returns. -/
theorem execute_step_fst (o : Order) (a : AccountState) (b : Bar) :
    (execute_step o a b).1 =
      o.execute
        (match o.order_type with
         | OrderType.buy => b.high
         | OrderType.sell => b.low) b.timestamp := by
  unfold execute_step
  cases h : (o.execute
      (match o.order_type with
       | OrderType.buy => b.high
       | OrderType.sell => b.low) b.timestamp).calculate_pnl <;>
    simp [h]

/-- Scanning a list whose first trigger is at index `k` performs exactly the
step at index `k`. -/
theorem scan_bars_eq_of_first (o : Order) (a : AccountState) :
    ∀ (l : List Bar) (k : ℕ) (hk : k < l.length),
      trigger o (l.get ⟨k, hk⟩) = true →
      (∀ (j : ℕ) (hj : j < k), trigger o (l.get ⟨j, Nat.lt_trans hj hk⟩) = false) →
      scan_bars o a l = execute_step o a (l.get ⟨k, hk⟩)
  | [], k, hk, _, _ => absurd hk (Nat.not_lt_zero k)
  | b :: _, 0, _, htrig, _ => by
      have hb : trigger o b = true := htrig
      simp [scan_bars, hb]
  | b :: rest, k + 1, hk, htrig, hfirst => by
      have hb : trigger o b = false := hfirst 0 (Nat.succ_pos k)
      have ih := scan_bars_eq_of_first o a rest k (Nat.lt_of_succ_lt_succ hk)
        htrig (fun j hj => hfirst (j + 1) (Nat.succ_lt_succ hj))
      simp [scan_bars, hb, ih]

/-- Scanning a list none of whose bars triggers leaves order and account
untouched. -/
theorem scan_bars_of_no_trigger (o : Order) (a : AccountState) :
    ∀ l : List Bar, (∀ b ∈ l, trigger o b = false) → scan_bars o a l = (o, a)
  | [], _ => rfl
  | b :: rest, h => by
      have hb : trigger o b = false := h b (List.mem_cons_self b rest)
      have ih := scan_bars_of_no_trigger o a rest
        (fun x hx => h x (List.mem_cons_of_mem b hx))
      simp [scan_bars, hb, ih]

/-! Concrete inputs used by witnesses and counterexamples. -/

/-- Witness account: opening balance 100000 backed by a valid store. -/
def accountW : AccountState := { balance := 100000, storage := Storage.valid 100000 }

/-- Witness order: a pending BUY placed at time 0 with only a take-profit. -/
def orderW : Order :=
  { order_id := "w", timestamp := 0, order_type := OrderType.buy
    price := 100, quantity := 1, take_profit := some 150, stop_loss := none }

/-- Witness bar at time 1 whose high triggers the take-profit of `orderW`. -/
def barW : Bar :=
  { timestamp := 1, open_price := 120, high := 160, low := 90
    close_price := 120, volume := 0 }

/-- Claim C2: for every pending order and time-sorted series, if index `k` of
the bars at or after the order's timestamp is the first whose high or low
satisfies the trigger predicate, the scan executes the order exactly once, at
that bar's timestamp, with the bar's high as market price for a BUY and its
low for a SELL, whichever side fired the predicate; if no such bar triggers,
the order (and the account) are left untouched, so the order stays PENDING. -/
theorem C2_first_trigger_executes (o : Order) (a : AccountState) (bars : List Bar)
    (hp : o.status = OrderStatus.pending)
    (_hsorted : bars.Pairwise fun b1 b2 => b1.timestamp ≤ b2.timestamp) :
    (∀ (k : ℕ) (hk : k < (future_bars o bars).length),
        trigger o ((future_bars o bars).get ⟨k, hk⟩) = true →
        (∀ (j : ℕ) (hj : j < k),
          trigger o ((future_bars o bars).get ⟨j, Nat.lt_trans hj hk⟩) = false) →
        (process_order o a bars).1 =
          o.execute
            (match o.order_type with
             | OrderType.buy => ((future_bars o bars).get ⟨k, hk⟩).high
             | OrderType.sell => ((future_bars o bars).get ⟨k, hk⟩).low)
            ((future_bars o bars).get ⟨k, hk⟩).timestamp)
    ∧ ((∀ b ∈ future_bars o bars, trigger o b = false) →
        process_order o a bars = (o, a) ∧
        (process_order o a bars).1.status = OrderStatus.pending) := by
  constructor
  · intro k hk htrig hfirst
    have h := scan_bars_eq_of_first o a (future_bars o bars) k hk htrig hfirst
    unfold process_order
    rw [h, execute_step_fst]
  · intro hnone
    have h := scan_bars_of_no_trigger o a (future_bars o bars) hnone
    unfold process_order
    rw [h]
    exact ⟨rfl, hp⟩

/-- Witness for C2: in the concrete one-bar scenario the first (index 0)
future bar triggers and the order is executed at its high and timestamp. -/
theorem C2_first_trigger_executes_witness :
    (process_order orderW accountW [barW]).1 = orderW.execute barW.high barW.timestamp := by
  have h := C2_first_trigger_executes orderW accountW [barW] rfl
    (List.pairwise_singleton _ _)
  have hk : 0 < (future_bars orderW [barW]).length := by
    simp [future_bars, orderW, barW]
  have htrig : trigger orderW ((future_bars orderW [barW]).get ⟨0, hk⟩) = true := by
    norm_num [future_bars, trigger, Order.is_executable, Order.get_execution_price,
      truthy, SPREAD, orderW, barW]
  have h0 := h.1 0 hk htrig (fun j hj => absurd hj (Nat.not_lt_zero j))
  simpa [future_bars, orderW, barW] using h0

/-- The BUY order of the end-to-end example of claim C1: requested price
148.215, take-profit 148.300, stop-loss 148.150, quantity 10000, placed at
time 0. -/
def orderC1 : Order :=
  { order_id := "c1", timestamp := 0, order_type := OrderType.buy
    price := 148.215, quantity := 10000
    take_profit := some 148.300, stop_loss := some 148.150 }

/-- The single subsequent bar of the example of claim C1: high 148.320, low
148.100, at time 1. -/
def barC1 : Bar :=
  { timestamp := 1, open_price := 148.215, high := 148.320, low := 148.100
    close_price := 148.215, volume := 0 }

/-- Claim C1 as stated is false: in the example scenario `calculate_pnl` does
not return 950 and the final balance is not 100950, because `execute` stores
the spread-adjusted price 148.420, not the raw bar high 148.320. -/
theorem C1_example_counterexample :
    Order.calculate_pnl (process_order orderC1 accountW [barC1]).1 ≠ some 950 ∧
    (process_order orderC1 accountW [barC1]).2.balance ≠ 100950 := by
  norm_num [process_order, future_bars, scan_bars, trigger, execute_step,
    Order.is_executable, Order.get_execution_price, Order.execute,
    Order.calculate_pnl, truthy, SPREAD, COMMISSION,
    Account.update_balance, Account.save_account, orderC1, barC1, accountW]

/-- Claim C1 amended: with opening balance 100000, the example BUY order
triggers on the high check, executes at bar time 1 with bar high 148.320 as
the market price, so its stored executed price is 148.420 (spread-adjusted);
`calculate_pnl` returns 1950 and the balance afterwards is 101950. -/
theorem C1_example_amended :
    Order.is_executable orderC1 barC1.high = true ∧
    (process_order orderC1 accountW [barC1]).1.status = OrderStatus.executed ∧
    (process_order orderC1 accountW [barC1]).1.executed_time = some 1 ∧
    (process_order orderC1 accountW [barC1]).1.executed_price = some 148.420 ∧
    Order.calculate_pnl (process_order orderC1 accountW [barC1]).1 = some 1950 ∧
    (process_order orderC1 accountW [barC1]).2.balance = 101950 := by
  norm_num [process_order, future_bars, scan_bars, trigger, execute_step,
    Order.is_executable, Order.get_execution_price, Order.execute,
    Order.calculate_pnl, truthy, SPREAD, COMMISSION,
    Account.update_balance, Account.save_account, orderC1, barC1, accountW]

/-- A pending SELL order whose stop-loss is hit by the bar's high in the C3
counterexample scenario. -/
def orderC3 : Order :=
  { order_id := "c3", timestamp := 0, order_type := OrderType.sell
    price := 100, quantity := 1, take_profit := none, stop_loss := some 105 }

/-- Bar for the C3 counterexample: high 106 (which fires the SELL stop-loss
check), low 99. -/
def barC3 : Bar :=
  { timestamp := 1, open_price := 100, high := 106, low := 99
    close_price := 100, volume := 0 }

/-- Claim C3 as stated is false: for the SELL order `orderC3` the high check
`is_executable bar.high` fires, yet the code executes with the bar low 99 as
the market price (stored executed price 98.9), not with the bar high (which
would store 105.9). -/
theorem C3_high_check_counterexample :
    Order.is_executable orderC3 barC3.high = true ∧
    (process_order orderC3 accountW [barC3]).1.executed_price = some 98.9 ∧
    some (Order.get_execution_price orderC3 barC3.high) ≠ (some 98.9 : Option ℚ) := by
  norm_num [process_order, future_bars, scan_bars, trigger, execute_step,
    Order.is_executable, Order.get_execution_price, Order.execute,
    Order.calculate_pnl, truthy, SPREAD, COMMISSION,
    Account.update_balance, Account.save_account, orderC3, barC3, accountW]

/-- Claim C3 amended: in a per-bar step, the bar is skipped exactly when both
`is_executable bar.high` and `is_executable bar.low` are false; when either is
true the order is executed at the bar's timestamp, but the market price used
is selected by order type — the bar's high for a BUY and its low for a SELL —
regardless of which of the two checks succeeded. -/
theorem C3_per_bar_step (o : Order) (a : AccountState) (b : Bar) (rest : List Bar) :
    (o.is_executable b.high = false → o.is_executable b.low = false →
      scan_bars o a (b :: rest) = scan_bars o a rest)
    ∧ ((o.is_executable b.high = true ∨ o.is_executable b.low = true) →
      (scan_bars o a (b :: rest)).1 =
        o.execute
          (match o.order_type with
           | OrderType.buy => b.high
           | OrderType.sell => b.low) b.timestamp) := by
  constructor
  · intro hh hl
    have ht : trigger o b = false := by simp [trigger, hh, hl]
    simp [scan_bars, ht]
  · intro h
    have ht : trigger o b = true := by
      rcases h with h | h <;> simp [trigger, h]
    rw [show scan_bars o a (b :: rest) = execute_step o a b by simp [scan_bars, ht],
      execute_step_fst]

/-- Witness for C3: the concrete SELL order and bar above satisfy the
hypothesis of the amended per-bar step theorem, and the step executes the
order with the bar low. -/
theorem C3_per_bar_step_witness :
    (scan_bars orderC3 accountW [barC3]).1 = orderC3.execute barC3.low barC3.timestamp := by
  have h := (C3_per_bar_step orderC3 accountW barC3 []).2
    (Or.inl (by norm_num [Order.is_executable, Order.get_execution_price,
      truthy, SPREAD, orderC3, barC3]))
  simpa [orderC3] using h

/-- An executed SELL order whose spread-adjusted executed price is exactly 0:
a pending SELL at requested price 5 executed at market price 0.1, so the
stored executed price is 0.1 − 0.1 = 0. -/
def orderC4 : Order :=
  Order.execute
    { order_id := "c4", timestamp := 0, order_type := OrderType.sell
      price := 5, quantity := 1 } 0.1 3

/-- Claim C4 as stated is false: `orderC4` is EXECUTED with executed price 0,
yet `calculate_pnl` returns none instead of the SELL formula value
(5 − 0) × 1 − 100 = −95, because the guard tests the truthiness — not the
presence — of `executed_price`. -/
theorem C4_pnl_counterexample :
    orderC4.status = OrderStatus.executed ∧
    orderC4.executed_price = some 0 ∧
    Order.calculate_pnl orderC4 = none ∧
    Order.calculate_pnl orderC4 ≠
      some ((orderC4.price - 0) * orderC4.quantity - COMMISSION) := by
  norm_num [Order.execute, Order.get_execution_price, Order.calculate_pnl,
    truthy, SPREAD, COMMISSION, orderC4]
  exact fun h => Option.noConfusion h

/-- Claim C4 amended: `calculate_pnl` returns none whenever the status is not
EXECUTED, and also for an executed order whose executed price is unset or
zero (the guard uses truthiness); for every executed order whose executed
price is set and nonzero it returns (executed − requested) × quantity −
COMMISSION for a BUY and (requested − executed) × quantity − COMMISSION for a
SELL, with COMMISSION the flat per-order constant 100. -/
theorem C4_pnl_formula (o : Order) :
    (o.status ≠ OrderStatus.executed → o.calculate_pnl = none)
    ∧ (truthy o.executed_price = false → o.calculate_pnl = none)
    ∧ (∀ ep : ℚ, o.executed_price = some ep → ep ≠ 0 →
        o.status = OrderStatus.executed →
        o.calculate_pnl =
          some ((match o.order_type with
                 | OrderType.buy => (ep - o.price) * o.quantity
                 | OrderType.sell => (o.price - ep) * o.quantity) - COMMISSION))
    ∧ COMMISSION = 100 := by
  refine ⟨fun h => ?_, fun h => ?_, fun ep hep hne hst => ?_, rfl⟩
  · simp [Order.calculate_pnl, h]
  · simp [Order.calculate_pnl, h]
  · simp [Order.calculate_pnl, truthy, hep, hne, hst]

/-- Witness for C4: a concrete executed BUY order with nonzero executed price
gets its pnl from the amended formula. -/
theorem C4_pnl_formula_witness :
    Order.calculate_pnl (orderW.execute 160 1) = some ((160.1 - 100) * 1 - COMMISSION) := by
  have h := (C4_pnl_formula (orderW.execute 160 1)).2.2.1 160.1
    (by norm_num [Order.execute, Order.get_execution_price, SPREAD, orderW])
    (by norm_num) rfl
  simpa [Order.execute, orderW] using h

/-- Claim C5: for every order and market price, the execution price is
marketPrice + SPREAD/2 for a BUY and marketPrice − SPREAD/2 for a SELL, with
SPREAD the fixed constant 0.2 shared by all orders. -/
theorem C5_execution_price (o : Order) (mp : ℚ) :
    (o.order_type = OrderType.buy → o.get_execution_price mp = mp + SPREAD / 2)
    ∧ (o.order_type = OrderType.sell → o.get_execution_price mp = mp - SPREAD / 2)
    ∧ SPREAD = 0.2 := by
  refine ⟨fun h => ?_, fun h => ?_, rfl⟩ <;> simp [Order.get_execution_price, h]

/-- Witness for C5: the BUY order `orderW` at market price 148.32 gets
execution price 148.42. -/
theorem C5_execution_price_witness :
    Order.get_execution_price orderW 148.32 = 148.42 := by
  have h := (C5_execution_price orderW 148.32).1 rfl
  rw [h]
  norm_num [SPREAD]

/-- Claim C6 as stated is false: `place_order` performs no validation, so
even with the non-positive quantity −1 an Order is created and stored in the
registry (and in the source a scanning task is then spawned for it
unconditionally). -/
theorem C6_no_validation_counterexample :
    ((-1 : ℚ) ≤ 0) ∧
    (place_order (fun _ => none) "id0" 0 OrderType.buy 100 (-1) none none).1 "id0"
      ≠ none := by
  refine ⟨by norm_num, ?_⟩
  simp [place_order]

/-- Claim C6 amended: `place_order` performs no input validation at all — for
every input, including non-positive quantities, it creates the PENDING Order,
stores it in the registry under the fresh id, returns that id (and the source
then spawns the scanning task unconditionally). -/
theorem C6_place_order_registers (orders : Registry) (order_id : String)
    (timestamp : ℕ) (order_type : OrderType) (price quantity : ℚ)
    (take_profit stop_loss : Option ℚ) :
    (place_order orders order_id timestamp order_type price quantity
        take_profit stop_loss).1 order_id =
      some { order_id := order_id, timestamp := timestamp
             order_type := order_type, price := price, quantity := quantity
             take_profit := take_profit, stop_loss := stop_loss
             status := OrderStatus.pending
             executed_price := none, executed_time := none }
    ∧ (place_order orders order_id timestamp order_type price quantity
        take_profit stop_loss).2 = order_id := by
  exact ⟨by simp [place_order], rfl⟩

/-- Claim C7: a balance persisted by `update_balance` is recovered exactly by
a fresh load from the same storage; loading from an absent store initializes
the balance to the default 100000 and persists it immediately; loading from a
corrupt store sets the in-memory balance to zero without failing. -/
theorem C7_account_round_trip (a : AccountState) (amt : ℚ) :
    (Account.load_account (Account.update_balance a amt).storage).balance
        = (Account.update_balance a amt).balance
    ∧ Account.load_account Storage.absent
        = { balance := 100000, storage := Storage.valid 100000 }
    ∧ (Account.load_account Storage.corrupt).balance = 0 := by
  exact ⟨rfl, rfl, rfl⟩

/-- Claim C8: `cancel_order` returns true exactly when the id maps to a
PENDING order; a true result sets that order's status to CANCELLED and leaves
its other fields as they were; a false result leaves the whole registry
untouched. -/
theorem C8_cancel_order_spec (orders : Registry) (order_id : String) :
    ((cancel_order orders order_id).1 = true ↔
      ∃ o, orders order_id = some o ∧ o.status = OrderStatus.pending)
    ∧ ((cancel_order orders order_id).1 = false →
        (cancel_order orders order_id).2 = orders)
    ∧ (∀ o, orders order_id = some o → o.status = OrderStatus.pending →
        (cancel_order orders order_id).2 order_id =
          some { o with status := OrderStatus.cancelled }) := by
  refine ⟨⟨fun h => ?_, fun ⟨o, ho, hs⟩ => ?_⟩, fun h => ?_, fun o ho hs => ?_⟩
  · unfold cancel_order at h
    cases hl : orders order_id with
    | none => rw [hl] at h; simp at h
    | some o =>
        rw [hl] at h
        by_cases hs : o.status = OrderStatus.pending
        · exact ⟨o, rfl, hs⟩
        · simp [hs] at h
  · unfold cancel_order
    rw [ho]
    simp [hs]
  · unfold cancel_order at h ⊢
    cases hl : orders order_id with
    | none => rfl
    | some o =>
        rw [hl] at h
        by_cases hs : o.status = OrderStatus.pending
        · simp [hs] at h
        · simp [hs]
  · unfold cancel_order
    rw [ho]
    simp [hs]

/-- Witness for C8: in a registry holding only the pending order `orderW`
under key "w", cancelling "w" succeeds. -/
theorem C8_cancel_order_spec_witness :
    (cancel_order (fun k => if k = "w" then some orderW else none) "w").1 = true := by
  exact (C8_cancel_order_spec (fun k => if k = "w" then some orderW else none) "w").1.mpr
    ⟨orderW, by simp, rfl⟩

/-- The net effect of a sequence of `update_balance` calls, one per executed
order.  In the source every `_process_order` task runs its scan and its
single `update_balance` without any suspension point (`_process_order`
contains no await), so under asyncio's cooperative scheduling any
interleaving of the N scanning tasks applies the N atomic updates in some
sequential order, i.e. as a permutation of the deltas. -/
def apply_updates (a : AccountState) (deltas : List ℚ) : AccountState :=
  deltas.foldl Account.update_balance a

/-- Folding `update_balance` adds the sum of the deltas to the balance. -/
theorem apply_updates_balance :
    ∀ (deltas : List ℚ) (a : AccountState),
      (apply_updates a deltas).balance = a.balance + deltas.sum
  | [], a => by simp [apply_updates]
  | d :: rest, a => by
      have ih := apply_updates_balance rest (Account.update_balance a d)
      simp only [apply_updates, List.foldl_cons] at ih ⊢
      rw [ih, List.sum_cons]
      simp [Account.update_balance]
      ring

/-- Claim C9: whatever order the scanning tasks' balance updates are applied
in — any permutation `schedule` of the intended deltas — the final balance is
the initial balance plus the exact sum of all deltas: no update is lost. -/
theorem C9_no_lost_updates (a : AccountState) (deltas schedule : List ℚ)
    (hperm : schedule.Perm deltas) :
    (apply_updates a schedule).balance = a.balance + deltas.sum := by
  rw [apply_updates_balance, hperm.sum_eq]

/-- Witness for C9: applying the deltas 1 and 2 in swapped order still adds
their sum, 3, to the opening balance 100000. -/
theorem C9_no_lost_updates_witness :
    (apply_updates accountW [2, 1]).balance = accountW.balance + List.sum [1, 2] := by
  exact C9_no_lost_updates accountW [1, 2] [2, 1] (List.Perm.swap 1 2 [])

/-- Claim C10: a take-profit (resp. stop-loss) equal to the decimal 0 makes
`is_executable` behave exactly as if the field were unset, for every
candidate price, because the source tests the field's truthiness and
`Decimal(0)` is falsy. -/
theorem C10_zero_level_disabled (o : Order) (cp : ℚ) :
    (o.take_profit = some 0 →
      o.is_executable cp = Order.is_executable { o with take_profit := none } cp)
    ∧ (o.stop_loss = some 0 →
      o.is_executable cp = Order.is_executable { o with stop_loss := none } cp) := by
  constructor
  · intro h
    rcases o with ⟨id, ts, ty, p, q, tp, sl, st, ep, et⟩
    simp only at h
    subst h
    cases ty <;> cases st <;>
      simp [Order.is_executable, Order.get_execution_price, truthy]
  · intro h
    rcases o with ⟨id, ts, ty, p, q, tp, sl, st, ep, et⟩
    simp only at h
    subst h
    cases ty <;> cases st <;>
      simp [Order.is_executable, Order.get_execution_price, truthy]

/-- Witness for C10: a pending BUY whose take-profit is the decimal 0 never
triggers on its take-profit half, exactly as with no take-profit at all. -/
theorem C10_zero_level_disabled_witness :
    Order.is_executable { orderW with take_profit := some 0 } 200 =
      Order.is_executable { orderW with take_profit := none } 200 := by
  have h := (C10_zero_level_disabled { orderW with take_profit := some 0 } 200).1 rfl
  simpa using h

end FxTrading
